import Mathlib

/-!
# mitama::maybe: a shallow embedding of `include/mitama/maybe/maybe.hpp`

The header is template code: part of what it does happens when a template is
instantiated (which specialisation exists, which `if constexpr` arm is kept) and
part when the program runs (`bool(storage_)`, `*storage_`, calling `f`).  Both
parts are embedded:

* C++ object types are the codes of `Ty`; the type traits the header asks
  (`is_pointer_like`, `std::is_pointer`, `element_type`, `std::is_constructible`)
  are functions on those codes, following C++17 and the default configuration of
  the header (`WITH_BOOST_OPTIONAL` not defined);
* run-time values are the terms of `Val`; objects that have an address live in a
  `Heap`, and an address is a `Place`;
* an operation returns an `Outcome`: a value, `Failure.ill_formed` when the
  instantiation it needs does not compile, or `Failure.undefined` when a
  precondition of the C++ operation is violated at run time.

`void`, cv-qualified types, arrays and function types are outside `Ty`. The classifier
and `element_type` are stated a second time on a `shape`, the record of what these traits
inspect of a type, which describes any type, `void*` or a class of the caller included.
-/

namespace mitama

/-! ## Types -/

/-- Codes of the C++ object types the header is used with. -/
inductive Ty where
  /-- The type `int`. -/
  | int
  /-- The type `bool`. -/
  | bool
  /-- The type `std::string`. -/
  | string
  /-- A plain struct (data members only, no user-declared constructor or operator). -/
  | struct (id : Nat)
  /-- The tag type `std::nullopt_t`, the type of `std::nullopt`. -/
  | nullopt_t
  /-- The raw pointer `T*`. -/
  | pointer (t : Ty)
  /-- The smart pointer `std::unique_ptr<T>`. -/
  | unique_ptr (t : Ty)
  /-- The smart pointer `std::shared_ptr<T>`. -/
  | shared_ptr (t : Ty)
  /-- The optional `std::optional<T>`. -/
  | optional (t : Ty)
  deriving DecidableEq, Repr

/-- The type `std::invoke_result_t<F&&, T&>` of a transformation: an object type,
returned by value or as a non-const lvalue reference to it. -/
structure invoke_result where
  /-- The type `std::remove_reference_t` of the result. -/
  type : Ty
  /-- Whether the callable returns `type&` rather than `type`. -/
  lvalue_ref : Bool
  deriving DecidableEq, Repr

/-! ## Addresses, values, memory -/

/-- Addresses of objects. -/
inductive Place where
  /-- A complete object of the caller (a variable or a heap object) at address `n`. -/
  | cell (n : Nat)
  /-- The member `storage_` of the `maybe_view` that `new` allocated at address `view`. -/
  | view_storage (view : Nat)
  /-- The local variable `None` of the `operator>>` call that allocates the view at `view`. -/
  | local_None (view : Nat)
  /-- The contained value of the `std::optional` object at `p`. -/
  | value_of (p : Place)
  deriving DecidableEq, Repr

/-- Run-time values. A pointer is null (`none`) or holds the address of its pointee. -/
inductive Val where
  /-- A value of `int`. -/
  | int (n : Int)
  /-- A value of `bool`. -/
  | bool (b : Bool)
  /-- A value of `std::string`. -/
  | string (s : String)
  /-- A value of a plain struct, given by its data members. -/
  | struct (members : List Int)
  /-- The value `std::nullopt`. -/
  | nullopt
  /-- A raw pointer. -/
  | pointer (a : Option Place)
  /-- A `std::unique_ptr`, given by what `get()` returns. -/
  | unique_ptr (a : Option Place)
  /-- A `std::shared_ptr`, given by what `get()` returns. -/
  | shared_ptr (a : Option Place)
  /-- A `std::optional` that holds no value. -/
  | opt_none
  /-- A `std::optional` that holds `v`. -/
  | opt_some (v : Val)
  deriving DecidableEq, Repr

/-- What can go wrong. -/
inductive Failure where
  /-- The program is ill-formed: the template instantiation does not compile. -/
  | ill_formed
  /-- Undefined behaviour: a precondition of the operation does not hold at run time. -/
  | undefined
  deriving DecidableEq, Repr

/-- Result of an operation of the header. -/
abbrev Outcome (α : Type) := Except Failure α

/-- The objects of the caller that have an address. -/
abbrev Heap := Nat → Option Val

/-- The object stored at a place, when there is one. Views are not part of the heap:
what they store is held by the `maybe` value itself. -/
def Heap.read (h : Heap) : Place → Option Val
  | .cell n => h n
  | .view_storage _ => none
  | .local_None _ => none
  | .value_of p =>
    match Heap.read h p with
    | some (.opt_some v) => some v
    | _ => none

/-- Shallow typing of values: the value has the shape of an object of type `t`. -/
def Val.has_type : Val → Ty → Bool
  | .int _, .int => true
  | .bool _, .bool => true
  | .string _, .string => true
  | .struct _, .struct _ => true
  | .nullopt, .nullopt_t => true
  | .pointer _, .pointer _ => true
  | .unique_ptr _, .unique_ptr _ => true
  | .shared_ptr _, .shared_ptr _ => true
  | .opt_none, .optional _ => true
  | .opt_some v, .optional t => Val.has_type v t
  | _, _ => false

/-! ## The native operations of pointer-like values -/

/-- The expression `bool(x)` for a pointer-like `x`: non-null, or holding a value. -/
def Val.truthy : Val → Outcome Bool
  | .pointer a => .ok a.isSome
  | .unique_ptr a => .ok a.isSome
  | .shared_ptr a => .ok a.isSome
  | .opt_none => .ok false
  | .opt_some _ => .ok true
  | _ => .error .undefined

/-- Reading the object a pointer designates; a null or dangling pointer has none. -/
def Heap.load (h : Heap) : Option Place → Outcome Val
  | some p =>
    match h.read p with
    | some v => .ok v
    | none => .error .undefined
  | none => .error .undefined

/-- The expression `*x` for a pointer-like `x`, read as a value. Dereferencing a null
pointer or an empty optional is undefined. -/
def Val.star (h : Heap) : Val → Outcome Val
  | .pointer a => h.load a
  | .unique_ptr a => h.load a
  | .shared_ptr a => h.load a
  | .opt_some v => .ok v
  | _ => .error .undefined

/-- The expression `x.operator->()` for an `x` of class type that lives at `self`:
`get()` for a smart pointer, the address of the contained value for an optional. The
standard requires `x` to be non-null, respectively to hold a value. -/
def Val.arrow (self : Place) : Val → Outcome (Option Place)
  | .unique_ptr (some p) => .ok (some p)
  | .shared_ptr (some p) => .ok (some p)
  | .opt_some _ => .ok (some (.value_of self))
  | _ => .error .undefined

/-- The expression `&*x` for a pointer-like `x` that lives at `self`: the address of the
object `*x` designates. -/
def Val.address_of_star (self : Place) : Val → Outcome (Option Place)
  | .pointer (some p) => .ok (some p)
  | .unique_ptr (some p) => .ok (some p)
  | .shared_ptr (some p) => .ok (some p)
  | .opt_some _ => .ok (some (.value_of self))
  | _ => .error .undefined

/-- A null pointer or an empty optional. -/
def Val.is_null : Val → Bool
  | .pointer none => true
  | .unique_ptr none => true
  | .shared_ptr none => true
  | .opt_none => true
  | _ => false

/-! ## `namespace mitama::mitamagic`: the classifier -/

namespace mitamagic

/-- The trait `std::is_pointer`. -/
def is_pointer : Ty → Bool
  | .pointer _ => true
  | _ => false

/-- Whether `std::declval<X&>().operator->()` is well-formed: `X` is a class type with a
member `operator->`. -/
def has_arrow : Ty → Bool
  | .unique_ptr _ => true
  | .shared_ptr _ => true
  | .optional _ => true
  | _ => false

/-- The type `std::remove_reference_t<decltype(*std::declval<X>())>`, when the
expression `*x` is well-formed. -/
def deref_type : Ty → Option Ty
  | .pointer t => some t
  | .unique_ptr t => some t
  | .shared_ptr t => some t
  | .optional t => some t
  | _ => none

/-- Whether `bool(std::declval<X&>())` is well-formed. -/
def has_bool : Ty → Bool
  | .int => true
  | .bool => true
  | .pointer _ => true
  | .unique_ptr _ => true
  | .shared_ptr _ => true
  | .optional _ => true
  | _ => false

/-- The trait `is_pointer_like` (lines 14-23): the partial specialisation is chosen when
the three expressions in its `std::void_t` are well-formed. -/
def is_pointer_like (X : Ty) : Bool :=
  has_arrow X && (deref_type X).isSome && has_bool X

/-- The trait `element_type` (lines 25-31): `::type` exists when the `enable_if` of the
partial specialisation holds and `*std::declval<T>()` is well-formed. -/
def element_type (X : Ty) : Option Ty :=
  if is_pointer_like X || is_pointer X then deref_type X else none

end mitamagic

/-! ## `std::is_constructible` for the two literals `operator>>` asks about -/

/-- The trait `std::is_constructible_v<R, decltype(nullptr)>` for an object type `R`:
`R t(nullptr)` is well-formed.
* pointers and smart pointers have a null value;
* `bool b(nullptr)` is a valid direct-initialisation (C++17 [conv.bool]);
* `std::string` has the constructor from `const char*` (C++17 [string.cons]);
* `std::optional<T>` has the converting constructor `optional(U&&)`, which takes part
  when `T` is constructible from `U` (C++17 [optional.ctor]). -/
def is_constructible_from_nullptr : Ty → Bool
  | .pointer _ => true
  | .unique_ptr _ => true
  | .shared_ptr _ => true
  | .bool => true
  | .string => true
  | .optional t => is_constructible_from_nullptr t
  | .int => false
  | .struct _ => false
  | .nullopt_t => false

/-- The trait `std::is_constructible_v<R, std::nullopt_t>` for an object type `R`:
`std::optional` has the constructor from `std::nullopt_t`, and `std::nullopt_t` can be
copied. -/
def is_constructible_from_nullopt : Ty → Bool
  | .optional _ => true
  | .nullopt_t => true
  | _ => false

/-- The trait `std::is_constructible_v<std::invoke_result_t<F&&, T&>, decltype(nullptr)>`
(line 128). A non-const lvalue reference does not bind to the literal. -/
def invoke_result.is_constructible_from_nullptr (R : invoke_result) : Bool :=
  !R.lvalue_ref && mitama.is_constructible_from_nullptr R.type

/-- The trait `std::is_constructible_v<std::invoke_result_t<F&&, T&>, decltype(None)>`
(line 136). -/
def invoke_result.is_constructible_from_nullopt (R : invoke_result) : Bool :=
  !R.lvalue_ref && mitama.is_constructible_from_nullopt R.type

/-- The value `R{nullptr}` (line 133). For `std::optional<T>` the converting constructor
runs: the optional holds the value `T(nullptr)`. Constructing a `std::string` from a null
`const char*` is undefined. -/
def Val.from_nullptr : Ty → Outcome Val
  | .pointer _ => .ok (.pointer none)
  | .unique_ptr _ => .ok (.unique_ptr none)
  | .shared_ptr _ => .ok (.shared_ptr none)
  | .bool => .ok (.bool false)
  | .string => .error .undefined
  | .optional t =>
    match Val.from_nullptr t with
    | .ok v => .ok (.opt_some v)
    | .error e => .error e
  | .int => .error .ill_formed
  | .struct _ => .error .ill_formed
  | .nullopt_t => .error .ill_formed

/-- Whether `std::optional<T>` can be instantiated: `T` is not `std::nullopt_t`
(C++17 [optional.optional]). -/
def optional_valid : Ty → Bool
  | .nullopt_t => false
  | _ => true

/-- The trait `std::is_constructible_v<X, X&>`: an object of type `X` can be copied.
A `std::unique_ptr` can only be moved, and the copy constructor of `std::optional<T>` is
deleted unless `T` can be copied (C++17 [optional.ctor]). Every type of `Ty` can be
moved. -/
def is_copy_constructible : Ty → Bool
  | .unique_ptr _ => false
  | .optional t => is_copy_constructible t
  | _ => true

/-- Whether `Some(std::invoke(...))` (line 146) is well-formed, that is whether
`option(std::forward<decltype(v)>(v))` (line 123) is, for `v` the result of the call: a
result returned by value is moved into the `option`, which every type of `Ty` allows; a
result returned by reference is an lvalue and is copied. -/
def invoke_result.Some_well_formed (R : invoke_result) : Bool :=
  !R.lvalue_ref || is_copy_constructible R.type

/-! ## `namespace mitama::mitamagic`: the view -/

namespace mitamagic

/-- The member `T storage_` of `maybe_view<T>` (line 61). The deduction guide
`maybe_view(T&&) -> maybe_view<T>` (line 97) makes `T` an lvalue reference when the
view is built from an lvalue. -/
inductive storage where
  /-- The case `T = X&`: `storage_` is a reference bound to the object of the caller at `loc`. -/
  | ref (loc : Place)
  /-- The case `T = X`: `storage_` is a member of the view allocated at `self`, holding `x`. -/
  | own (self : Nat) (x : Val)
  deriving DecidableEq, Repr

/-- A `maybe_view<T>` object. -/
structure maybe_view where
  /-- The type `std::decay_t<T>` of the wrapped value. -/
  X : Ty
  /-- The member `storage_`. -/
  storage_ : storage
  deriving DecidableEq, Repr

/-- Evaluating the member `storage_`: through the reference when it is one. -/
def maybe_view.load (h : Heap) (v : maybe_view) : Outcome Val :=
  match v.storage_ with
  | .own _ x => .ok x
  | .ref loc =>
    match h.read loc with
    | some x => .ok x
    | none => .error .undefined

/-- The address of the object `storage_` names. -/
def maybe_view.place (v : maybe_view) : Place :=
  match v.storage_ with
  | .own self _ => .view_storage self
  | .ref loc => loc

/-- The member `maybe_view::is_ok` (lines 73-75): `return bool(storage_);`. -/
def maybe_view.is_ok (h : Heap) (v : maybe_view) : Outcome Bool := do
  let x ← v.load h
  x.truthy

/-- The member `maybe_view::deref` (lines 76-78): `return *storage_;`. -/
def maybe_view.deref (h : Heap) (v : maybe_view) : Outcome Val := do
  let x ← v.load h
  x.star h

/-- The member `maybe_view::get_pointer` (lines 79-94): `storage_` itself for a raw
pointer, `storage_.operator->()` otherwise. -/
def maybe_view.get_pointer (h : Heap) (v : maybe_view) : Outcome (Option Place) := do
  let x ← v.load h
  if is_pointer v.X then
    match x with
    | .pointer a => .ok a
    | _ => .error .undefined
  else
    x.arrow v.place

end mitamagic

/-! ## `namespace mitama`: the container -/

/-- The argument of the constructor `maybe(U&& u)`. -/
inductive Arg where
  /-- An lvalue: the named object at `loc`. `U` is deduced as `X&`. -/
  | lvalue (loc : Place)
  /-- An rvalue (a temporary, or `std::move` of a variable) carrying `x`. `U` is `X`. -/
  | rvalue (x : Val)
  deriving DecidableEq, Repr

/-- The value the argument denotes. -/
def Arg.value (h : Heap) : Arg → Option Val
  | .lvalue loc => h.read loc
  | .rvalue x => some x

/-- A `maybe<T>` object. The member `storage_` is a
`std::unique_ptr<polymorphic_storage<T>>` that the only constructor sets to a freshly
allocated `maybe_view`, the one class that implements `polymorphic_storage`, so it is
never null and every virtual call lands in `maybe_view`. -/
structure maybe where
  /-- The template argument `T`. -/
  T : Ty
  /-- The view `storage_` owns. -/
  storage_ : mitamagic.maybe_view
  deriving DecidableEq, Repr

/-- Instantiating the constructor template `maybe<T>::maybe(U&&)` with `std::decay_t<U> = X`
(lines 107-108). `new maybe_view(u)` needs the partial specialisation of `maybe_view`
(lines 53-58), which has the base `polymorphic_storage<element_type<X>::type>`, and a
pointer to it has to convert to `polymorphic_storage<T>*`. -/
def maybe.instantiate (T X : Ty) : Outcome Unit :=
  if mitamagic.is_pointer_like X || mitamagic.is_pointer X then
    match mitamagic.element_type X with
    | some E => if E = T then .ok () else .error .ill_formed
    | none => .error .ill_formed
  else .error .ill_formed

/-- The constructor `maybe<T>::maybe(U&& u)` (lines 107-108); `self` is the address `new`
returns for the view. -/
def maybe.construct (T X : Ty) (u : Arg) (self : Nat) : Outcome maybe := do
  maybe.instantiate T X
  match u with
  | .lvalue loc => pure (maybe.mk T (mitamagic.maybe_view.mk X (.ref loc)))
  | .rvalue x => pure (maybe.mk T (mitamagic.maybe_view.mk X (.own self x)))

/-- Construction through the deduction guide
`maybe(T&&) -> maybe<element_type<decay_t<T>>::type>` (line 175). -/
def maybe.deduce (X : Ty) (u : Arg) (self : Nat) : Outcome maybe :=
  match mitamagic.element_type X with
  | some E => maybe.construct E X u self
  | none => .error .ill_formed

/-- The conversion `maybe::operator bool` (lines 154-156). -/
def maybe.operator_bool (h : Heap) (m : maybe) : Outcome Bool :=
  m.storage_.is_ok h

/-- The member `maybe::unwrap` (lines 158-164). -/
def maybe.unwrap (h : Heap) (m : maybe) : Outcome Val :=
  m.storage_.deref h

/-- The member `maybe::operator->` (lines 166-172). -/
def maybe.operator_arrow (h : Heap) (m : maybe) : Outcome (Option Place) :=
  m.storage_.get_pointer h

/-- The three arms of the `if constexpr` chain of `operator>>` (lines 128-151). -/
inductive strategy where
  /-- The arm of line 128: the result type is constructible from `nullptr`. -/
  | from_nullptr
  /-- The arm of line 136: the result type is constructible from `None`. -/
  | from_None
  /-- The arm of line 144: the result goes into the fallback `option`. -/
  | fallback
  deriving DecidableEq, Repr

/-- The arm the `if constexpr` chain keeps for a transformation of result type `R`. -/
def invoke_result.strategy (R : invoke_result) : strategy :=
  if R.is_constructible_from_nullptr then .from_nullptr
  else if R.is_constructible_from_nullopt then .from_None
  else .fallback

/-- The member `maybe::operator>>` (lines 110-152), without `WITH_BOOST_OPTIONAL`.

`R` is `std::invoke_result_t<F&&, T&>`; the transformation `f` maps the dereferenced value
and the state of the caller (whatever `f` reads and writes besides its argument) to its
result and the new state; `self` is the address `new` returns for the view of the result.
The arm is chosen from `R` alone, and both branches of the run-time `if` inside the chosen
arm are instantiated, whichever runs: the fallback arm needs the type `option`
(line 122) and the call of `Some` (line 146) to be well-formed. That `f` can be called with a `T&` (the `enable_if`
and the `static_assert`) is part of `f` being a function on values. -/
def maybe.operator_shr {σ : Type} (h : Heap) (m : maybe) (R : invoke_result)
    (f : Val → σ → Val × σ) (s : σ) (self : Nat) : Outcome (maybe × σ) :=
  let result_type := R.type
  match R.strategy with
  | .from_nullptr =>
    match mitamagic.element_type result_type with
    | none => .error .ill_formed
    | some E => do
      maybe.instantiate E result_type
      if (← m.storage_.is_ok h) then
        let r := f (← m.storage_.deref h) s
        let m2 ← maybe.construct E result_type (.rvalue r.1) self
        pure (m2, r.2)
      else
        let null ← Val.from_nullptr result_type
        let m2 ← maybe.construct E result_type (.rvalue null) self
        pure (m2, s)
  | .from_None =>
    match mitamagic.element_type result_type with
    | none => .error .ill_formed
    | some E => do
      maybe.instantiate E result_type
      maybe.instantiate E .nullopt_t
      if (← m.storage_.is_ok h) then
        let r := f (← m.storage_.deref h) s
        let m2 ← maybe.construct E result_type (.rvalue r.1) self
        pure (m2, r.2)
      else
        let m2 ← maybe.construct E .nullopt_t (.lvalue (.local_None self)) self
        pure (m2, s)
  | .fallback =>
    if optional_valid result_type && R.Some_well_formed then do
      maybe.instantiate result_type (.optional result_type)
      if (← m.storage_.is_ok h) then
        let r := f (← m.storage_.deref h) s
        let m2 ← maybe.construct result_type (.optional result_type)
          (.rvalue (.opt_some r.1)) self
        pure (m2, r.2)
      else
        let m2 ← maybe.construct result_type (.optional result_type)
          (.rvalue .opt_none) self
        pure (m2, s)
    else .error .ill_formed

/-- A transformation that has no effect besides its result. -/
def pure_function (g : Val → Val) : Val → Unit → Val × Unit :=
  fun v s => (g v, s)

/-- A transformation instrumented with a counter of its calls. -/
def counted (g : Val → Val) : Val → Nat → Val × Nat :=
  fun v n => (g v, n + 1)

/-! ## The classifier on an arbitrary type

The traits of lines 14-31 see of a type only whether it is a pointer, which of three
expressions are well-formed for it, and the type of `*x`. A `shape` records exactly that,
so that the traits can be stated for every type, those outside `Ty` (such as `void*`, or a
class of the caller) included. -/

namespace mitamagic

/-- Whether a type is a reference, and of which kind. -/
inductive reference where
  /-- Not a reference. -/
  | none
  /-- An lvalue reference `T&`. -/
  | lvalue
  /-- An rvalue reference `T&&`. -/
  | rvalue
  deriving DecidableEq, Repr

/-- The type of an expression: an object type, possibly behind a reference. -/
structure expression_type where
  /-- The object type referred to. -/
  type : Ty
  /-- The reference on top of it. -/
  ref : reference
  deriving DecidableEq, Repr

/-- The trait `std::remove_reference_t`. -/
def remove_reference_t (e : expression_type) : expression_type :=
  expression_type.mk e.type .none

/-- What the traits of lines 14-31 inspect of a type `X`. -/
structure shape where
  /-- The trait `std::is_pointer<X>`. -/
  is_pointer : Bool
  /-- Whether `std::declval<X&>().operator->()` is well-formed (line 19). -/
  arrow : Bool
  /-- Whether `*std::declval<X&>()` is well-formed (line 20). -/
  star_of_lvalue : Bool
  /-- Whether `bool(std::declval<X&>())` is well-formed (line 21). -/
  to_bool : Bool
  /-- The type `decltype(*std::declval<X>())` (line 30), when the expression is well-formed. -/
  star : Option expression_type
  deriving DecidableEq, Repr

/-- The trait `is_pointer_like` (lines 14-23) on a shape: the three expressions inside
`std::void_t` are well-formed. -/
def shape.is_pointer_like (s : shape) : Bool :=
  s.arrow && s.star_of_lvalue && s.to_bool

/-- The classifier `std::disjunction_v<is_pointer_like<X>, std::is_pointer<X>>`, the
`enable_if` condition of `element_type` (line 29) and of `maybe_view` (lines 55-58). -/
def shape.accepted (s : shape) : Bool :=
  s.is_pointer_like || s.is_pointer

/-- The member `element_type<X>::type` (lines 28-31) on a shape: the specialisation is
enabled for an accepted type, and its `type` is
`std::remove_reference_t<decltype(*std::declval<X>())>`. -/
def shape.element_type (s : shape) : Option expression_type :=
  if s.accepted then s.star.map remove_reference_t else none

/-- The type `decltype(*std::declval<X>())` for an `X` of `Ty`: a pointer or a smart
pointer gives an lvalue of the pointee, an rvalue `std::optional` gives an rvalue
reference to its value. -/
def decltype_star : Ty → Option expression_type
  | .pointer t => some (expression_type.mk t .lvalue)
  | .unique_ptr t => some (expression_type.mk t .lvalue)
  | .shared_ptr t => some (expression_type.mk t .lvalue)
  | .optional t => some (expression_type.mk t .rvalue)
  | _ => none

/-- The shape of a type of `Ty`. -/
def shape_of (X : Ty) : shape :=
  shape.mk (is_pointer X) (has_arrow X) (deref_type X).isSome (has_bool X) (decltype_star X)

/-- The shape of `void*`: a pointer, convertible to `bool`, that has no member
`operator->` and cannot be dereferenced (C++17 [expr.unary.op]/1). -/
def shape_of_void_pointer : shape :=
  shape.mk true false false true none

/-- The shape of an iterator of a standard container, such as
`std::list<int>::iterator`: `*it` and `it.operator->()` are well-formed, `bool(it)` is
not. -/
def shape_of_list_iterator : shape :=
  shape.mk false true true false (some (expression_type.mk .int .lvalue))

end mitamagic

/-! ## Assignments of the caller, call logs, composition -/

/-- The heap after the caller assigns `v` to the object at address `n`. -/
def Heap.write (h : Heap) (n : Nat) (v : Val) : Heap :=
  fun k => if k = n then some v else h k

/-- The complete object of the caller a place lies in, if it lies in one. -/
def Place.root : Place → Option Nat
  | .cell n => some n
  | .view_storage _ => none
  | .local_None _ => none
  | .value_of p => Place.root p

/-- The address a raw or smart pointer holds. -/
def Val.target : Val → Option Place
  | .pointer a => a
  | .unique_ptr a => a
  | .shared_ptr a => a
  | _ => none

/-- A transformation instrumented with the log of the arguments it was called on. -/
def logged (g : Val → Val) : Val → List Val → Val × List Val :=
  fun v log => (g v, log ++ [v])

/-- The transformation `[&](auto& x) { return g(f(x)); }`: `g` after `f`. -/
def compose {σ : Type} (f g : Val → σ → Val × σ) : Val → σ → Val × σ :=
  fun v s => g (f v s).1 (f v s).2

/-- What a caller can see of the result of a chain: whether it compiled and ran, and then
the presence of the result, what `unwrap()` gives, and the state `f` left. -/
def observe {σ : Type} (h : Heap) (r : Outcome (maybe × σ)) :
    Outcome (Outcome Bool × Outcome Val × σ) :=
  r.map (fun p => (p.1.operator_bool h, p.1.unwrap h, p.2))

/-! ## Sample programs -/

/-- The transformation `[](int& x) { return x * 2; }`. -/
def times_two : Val → Val
  | .int n => .int (n * 2)
  | v => v

/-- The transformation `[](int& x) { return x > 0; }`. -/
def is_positive : Val → Val
  | .int n => .bool (decide (0 < n))
  | v => v

/-- The transformation `[](bool& b) { return b ? 1 : 0; }`. -/
def to_int : Val → Val
  | .bool true => .int 1
  | .bool false => .int 0
  | v => v

/-- A caller with `int x = 5;` at address 0. -/
def heap_int : Heap := fun n => if n = 0 then some (.int 5) else none

/-- A caller with `int x = 7;` at address 0 and `int* q = &x;` at address 1. -/
def heap_pointer : Heap := fun n =>
  if n = 0 then some (.int 7)
  else if n = 1 then some (.pointer (some (.cell 0)))
  else none

/-- A caller with `std::optional<S> x{S{1, 2}};` at address 0, for a plain struct `S`. -/
def heap_optional : Heap := fun n =>
  if n = 0 then some (.opt_some (.struct [1, 2])) else none

end mitama

namespace mitama

/-! ## Construction, presence, unwrap -/

theorem construct_ok_iff (T X : Ty) (u : Arg) (self : Nat) (m : maybe) :
    maybe.construct T X u self = .ok m ↔
      maybe.instantiate T X = .ok () ∧
        m = maybe.mk T (mitamagic.maybe_view.mk X
          (match u with
           | .lvalue loc => .ref loc
           | .rvalue x => .own self x)) := by
  unfold maybe.construct
  cases hi : maybe.instantiate T X with
  | error e => simp [bind, Except.bind]
  | ok w =>
    cases u <;> simp [bind, Except.bind, pure, Except.pure, eq_comm]

theorem load_of_construct (h : Heap) (T X : Ty) (u : Arg) (self : Nat) (m : maybe) (x : Val)
    (hm : maybe.construct T X u self = .ok m) (hx : u.value h = some x) :
    m.storage_.load h = .ok x := by
  obtain ⟨-, rfl⟩ := (construct_ok_iff T X u self m).1 hm
  cases u with
  | lvalue loc =>
    simp only [Arg.value] at hx
    simp [mitamagic.maybe_view.load, hx]
  | rvalue y =>
    simp only [Arg.value, Option.some.injEq] at hx
    simp [mitamagic.maybe_view.load, hx]

theorem operator_bool_of_load (h : Heap) (m : maybe) (x : Val)
    (hl : m.storage_.load h = .ok x) : m.operator_bool h = x.truthy := by
  simp [maybe.operator_bool, mitamagic.maybe_view.is_ok, hl, bind, Except.bind]

theorem unwrap_of_load (h : Heap) (m : maybe) (x : Val)
    (hl : m.storage_.load h = .ok x) : m.unwrap h = x.star h := by
  simp [maybe.unwrap, mitamagic.maybe_view.deref, hl, bind, Except.bind]

theorem present_of_construct (h : Heap) (T X : Ty) (u : Arg) (self : Nat) (m : maybe) (x : Val)
    (hm : maybe.construct T X u self = .ok m) (hx : u.value h = some x)
    (ht : x.truthy = .ok true) :
    m.operator_bool h = .ok true ∧ m.unwrap h = x.star h := by
  have hl := load_of_construct h T X u self m x hm hx
  exact ⟨(operator_bool_of_load h m x hl).trans ht, unwrap_of_load h m x hl⟩

/-- C1: a `maybe` constructed from a pointer-like value `x` whose own truthiness test
succeeds (a non-null raw or smart pointer, an optional holding a value) converts to
`true`, and `unwrap()` gives what `*x` gives. -/
theorem C1_present_unwrap (h : Heap) (T X : Ty) (u : Arg) (self : Nat) (m : maybe) (x : Val)
    (hm : maybe.construct T X u self = .ok m) (hx : u.value h = some x)
    (ht : x.truthy = .ok true) :
    m.operator_bool h = .ok true ∧ m.unwrap h = x.star h := by
  have hl := load_of_construct h T X u self m x hm hx
  exact ⟨(operator_bool_of_load h m x hl).trans ht, unwrap_of_load h m x hl⟩

/-- C2: a `maybe` constructed from a null pointer or an empty optional converts to
`false`; in general the conversion gives exactly what `bool(x)` gives for the wrapped
`x`, so it is `true` if and only if that test succeeds. -/
theorem C2_bool_iff_truthy (h : Heap) (T X : Ty) (u : Arg) (self : Nat) (m : maybe) (x : Val)
    (hm : maybe.construct T X u self = .ok m) (hx : u.value h = some x) :
    (x.is_null = true → m.operator_bool h = .ok false) ∧
      m.operator_bool h = x.truthy ∧
      (m.operator_bool h = .ok true ↔ x.truthy = .ok true) := by
  have hb := operator_bool_of_load h m x (load_of_construct h T X u self m x hm hx)
  refine ⟨?_, hb, by rw [hb]⟩
  intro hn
  rw [hb]
  cases x with
  | pointer a => cases a <;> simp_all [Val.is_null, Val.truthy]
  | unique_ptr a => cases a <;> simp_all [Val.is_null, Val.truthy]
  | shared_ptr a => cases a <;> simp_all [Val.is_null, Val.truthy]
  | opt_none => rfl
  | _ => simp [Val.is_null] at hn

theorem C1_present_unwrap_witness :
    (maybe.mk .int (mitamagic.maybe_view.mk (.pointer .int)
        (.own 100 (.pointer (some (.cell 0)))))).operator_bool heap_int = .ok true ∧
      (maybe.mk .int (mitamagic.maybe_view.mk (.pointer .int)
        (.own 100 (.pointer (some (.cell 0)))))).unwrap heap_int = .ok (.int 5) :=
  C1_present_unwrap heap_int .int (.pointer .int) (.rvalue (.pointer (some (.cell 0)))) 100
    _ (.pointer (some (.cell 0))) rfl rfl rfl

theorem C2_bool_iff_truthy_witness :
    (Val.is_null .opt_none = true →
        (maybe.mk .int (mitamagic.maybe_view.mk (.optional .int)
          (.own 100 .opt_none))).operator_bool heap_int = .ok false) ∧
      (maybe.mk .int (mitamagic.maybe_view.mk (.optional .int)
          (.own 100 .opt_none))).operator_bool heap_int = .ok false ∧
      ((maybe.mk .int (mitamagic.maybe_view.mk (.optional .int)
          (.own 100 .opt_none))).operator_bool heap_int = .ok true ↔
        Val.truthy .opt_none = .ok true) :=
  C2_bool_iff_truthy heap_int .int (.optional .int) (.rvalue .opt_none) 100 _ .opt_none rfl rfl

/-! ## Chaining: the fallback arm -/

theorem is_ok_eq_operator_bool (h : Heap) (m : maybe) :
    m.storage_.is_ok h = m.operator_bool h := rfl

theorem deref_eq_unwrap (h : Heap) (m : maybe) :
    m.storage_.deref h = m.unwrap h := rfl

theorem instantiate_optional (T : Ty) : maybe.instantiate T (.optional T) = .ok () := by
  simp [maybe.instantiate, mitamagic.is_pointer_like, mitamagic.has_arrow,
    mitamagic.deref_type, mitamagic.has_bool, mitamagic.element_type]

theorem operator_shr_fallback_present {σ : Type} (h : Heap) (m : maybe) (R : invoke_result)
    (f : Val → σ → Val × σ) (s : σ) (self : Nat) (v : Val)
    (hp : m.operator_bool h = .ok true) (hv : m.unwrap h = .ok v)
    (hR : R.strategy = .fallback) (hopt : optional_valid R.type = true)
    (hsome : R.Some_well_formed = true) :
    m.operator_shr h R f s self =
      .ok (maybe.mk R.type (mitamagic.maybe_view.mk (.optional R.type)
        (.own self (.opt_some (f v s).1))), (f v s).2) := by
  simp [maybe.operator_shr, hR, hopt, hsome, instantiate_optional, is_ok_eq_operator_bool,
    deref_eq_unwrap, hp, hv, maybe.construct, bind, Except.bind, pure, Except.pure]

theorem operator_shr_fallback_absent {σ : Type} (h : Heap) (m : maybe) (R : invoke_result)
    (f : Val → σ → Val × σ) (s : σ) (self : Nat)
    (ha : m.operator_bool h = .ok false)
    (hR : R.strategy = .fallback) (hopt : optional_valid R.type = true)
    (hsome : R.Some_well_formed = true) :
    m.operator_shr h R f s self =
      .ok (maybe.mk R.type (mitamagic.maybe_view.mk (.optional R.type)
        (.own self .opt_none)), s) := by
  simp [maybe.operator_shr, hR, hopt, hsome, instantiate_optional, is_ok_eq_operator_bool,
    ha, maybe.construct, bind, Except.bind, pure, Except.pure]

/-- In the fallback arm, chaining on a present `maybe` holding `v` gives a present `maybe`
over the result type whose `unwrap()` is `f(v)`. -/
theorem chain_present_fallback {σ : Type} (h : Heap) (m : maybe) (R : invoke_result)
    (f : Val → σ → Val × σ) (s : σ) (self : Nat) (v : Val)
    (hp : m.operator_bool h = .ok true) (hv : m.unwrap h = .ok v)
    (hR : R.strategy = .fallback) (hopt : optional_valid R.type = true)
    (hsome : R.Some_well_formed = true) :
    ∃ m2 : maybe, m.operator_shr h R f s self = .ok (m2, (f v s).2) ∧
      m2.T = R.type ∧ m2.operator_bool h = .ok true ∧ m2.unwrap h = .ok (f v s).1 :=
  ⟨_, operator_shr_fallback_present h m R f s self v hp hv hR hopt hsome, rfl, rfl, rfl⟩

/-- The `maybe<int>` holding 5 chained with `times_two` is a present `maybe<int>` holding
10. -/
theorem chain_times_two :
    ∃ m2 : maybe,
      (maybe.mk .int (mitamagic.maybe_view.mk (.pointer .int)
        (.own 100 (.pointer (some (.cell 0)))))).operator_shr heap_int
          (invoke_result.mk .int false) (pure_function times_two) () 101 = .ok (m2, ()) ∧
      m2.T = .int ∧ m2.operator_bool heap_int = .ok true ∧
      m2.unwrap heap_int = .ok (.int 10) :=
  chain_present_fallback heap_int _ (invoke_result.mk .int false) (pure_function times_two)
    () 101 (.int 5) rfl rfl rfl rfl rfl

/-- In the fallback arm, chaining on an absent `maybe` gives an absent `maybe` and leaves
the state of the caller as it was, whatever `f` would do to it: `f` is not called. -/
theorem chain_absent_fallback {σ : Type} (h : Heap) (m : maybe) (R : invoke_result)
    (f : Val → σ → Val × σ) (s : σ) (self : Nat)
    (ha : m.operator_bool h = .ok false)
    (hR : R.strategy = .fallback) (hopt : optional_valid R.type = true)
    (hsome : R.Some_well_formed = true) :
    ∃ m2 : maybe, m.operator_shr h R f s self = .ok (m2, s) ∧
      m2.T = R.type ∧ m2.operator_bool h = .ok false :=
  ⟨_, operator_shr_fallback_absent h m R f s self ha hR hopt hsome, rfl, rfl⟩

/-- For a result type that is sent to the `nullptr` arm and has no `element_type`, the
chain does not compile. -/
theorem operator_shr_no_element_type {σ : Type} (h : Heap) (m : maybe) (R : invoke_result)
    (f : Val → σ → Val × σ) (s : σ) (self : Nat)
    (hR : R.strategy = .from_nullptr) (he : mitamagic.element_type R.type = none) :
    m.operator_shr h R f s self = .error .ill_formed := by
  simp [maybe.operator_shr, hR, he]

/-- C3: on the present `maybe<int>` built from a pointer to `int x = 5;`, chaining a
transformation that returns the plain value `bool` (such as `is_positive`), or
`std::string`, does not compile: the `nullptr` arm is kept for it and not the fallback arm,
so no present `maybe` holding `f(5)` is produced. -/
theorem C3_chain_present_bool_result {σ : Type} (f : Val → σ → Val × σ) (s : σ)
    (self : Nat) :
    (maybe.mk .int (mitamagic.maybe_view.mk (.pointer .int)
        (.own 100 (.pointer (some (.cell 0)))))).operator_bool heap_int = .ok true ∧
      (maybe.mk .int (mitamagic.maybe_view.mk (.pointer .int)
        (.own 100 (.pointer (some (.cell 0)))))).unwrap heap_int = .ok (.int 5) ∧
      is_positive (.int 5) = .bool true ∧
      (invoke_result.mk .bool false).strategy = .from_nullptr ∧
      (maybe.mk .int (mitamagic.maybe_view.mk (.pointer .int)
        (.own 100 (.pointer (some (.cell 0)))))).operator_shr heap_int
          (invoke_result.mk .bool false) f s self = .error .ill_formed ∧
      (maybe.mk .int (mitamagic.maybe_view.mk (.pointer .int)
        (.own 100 (.pointer (some (.cell 0)))))).operator_shr heap_int
          (invoke_result.mk .string false) f s self = .error .ill_formed :=
  ⟨rfl, rfl, rfl, rfl, operator_shr_no_element_type _ _ _ f s self rfl rfl,
    operator_shr_no_element_type _ _ _ f s self rfl rfl⟩

/-- C4: on the absent `maybe<int>` built from a null `int*`, chaining a transformation
that returns the plain value `bool`, or `std::string`, does not compile, with or without a
counter of its calls: no absent `maybe` is produced. -/
theorem C4_chain_absent_bool_result (g : Val → Val) (self : Nat) :
    (maybe.mk .int (mitamagic.maybe_view.mk (.pointer .int)
        (.own 100 (.pointer none)))).operator_bool heap_int = .ok false ∧
      (invoke_result.mk .bool false).strategy = .from_nullptr ∧
      (maybe.mk .int (mitamagic.maybe_view.mk (.pointer .int)
        (.own 100 (.pointer none)))).operator_shr heap_int
          (invoke_result.mk .bool false) (counted g) 0 self = .error .ill_formed ∧
      (maybe.mk .int (mitamagic.maybe_view.mk (.pointer .int)
        (.own 100 (.pointer none)))).operator_shr heap_int
          (invoke_result.mk .string false) (counted g) 0 self = .error .ill_formed :=
  ⟨rfl, rfl, operator_shr_no_element_type _ _ _ (counted g) 0 self rfl rfl,
    operator_shr_no_element_type _ _ _ (counted g) 0 self rfl rfl⟩

/-- The absent `maybe<int>` chained with a counted `times_two`: the result is absent and
the counter is still 0. -/
theorem chain_absent_counter :
    ∃ m2 : maybe,
      (maybe.mk .int (mitamagic.maybe_view.mk (.pointer .int)
        (.own 100 (.pointer none)))).operator_shr heap_int
          (invoke_result.mk .int false) (counted times_two) 0 101 = .ok (m2, 0) ∧
      m2.T = .int ∧ m2.operator_bool heap_int = .ok false :=
  chain_absent_fallback heap_int _ (invoke_result.mk .int false) (counted times_two) 0 101
    rfl rfl rfl rfl

/-! ## Chaining: the arms for results constructible from `nullptr` or from `None` -/

/-- The absent branch of the `nullptr` arm for a raw or smart pointer result: the result
wraps the null pointer of that type and is absent, and `f` is not called. -/
theorem operator_shr_pointer_absent {σ : Type} (h : Heap) (m : maybe) (R : invoke_result)
    (f : Val → σ → Val × σ) (s : σ) (self : Nat) (t : Ty)
    (ha : m.operator_bool h = .ok false)
    (hR : R.type = .pointer t ∨ R.type = .unique_ptr t ∨ R.type = .shared_ptr t)
    (hval : R.lvalue_ref = false) :
    ∃ m2 : maybe, ∃ null : Val, m.operator_shr h R f s self = .ok (m2, s) ∧
      Val.from_nullptr R.type = .ok null ∧ m2.T = t ∧
      m2.storage_.storage_ = .own self null ∧ m2.operator_bool h = .ok false := by
  obtain ⟨R, lv⟩ := R
  simp only at hval hR
  subst hval
  rcases hR with rfl | rfl | rfl
  · refine ⟨maybe.mk t (mitamagic.maybe_view.mk (.pointer t) (.own self (.pointer none))),
      .pointer none, ?_, rfl, rfl, rfl, rfl⟩
    simp [maybe.operator_shr, invoke_result.strategy,
      invoke_result.is_constructible_from_nullptr, is_constructible_from_nullptr,
      mitamagic.element_type, mitamagic.is_pointer, mitamagic.deref_type, maybe.instantiate,
      is_ok_eq_operator_bool, ha, maybe.construct, Val.from_nullptr, bind, Except.bind,
      pure, Except.pure]
  · refine ⟨maybe.mk t (mitamagic.maybe_view.mk (.unique_ptr t)
      (.own self (.unique_ptr none))), .unique_ptr none, ?_, rfl, rfl, rfl, rfl⟩
    simp [maybe.operator_shr, invoke_result.strategy,
      invoke_result.is_constructible_from_nullptr, is_constructible_from_nullptr,
      mitamagic.element_type, mitamagic.is_pointer_like, mitamagic.has_arrow,
      mitamagic.has_bool, mitamagic.deref_type, maybe.instantiate,
      is_ok_eq_operator_bool, ha, maybe.construct, Val.from_nullptr, bind, Except.bind,
      pure, Except.pure]
  · refine ⟨maybe.mk t (mitamagic.maybe_view.mk (.shared_ptr t)
      (.own self (.shared_ptr none))), .shared_ptr none, ?_, rfl, rfl, rfl, rfl⟩
    simp [maybe.operator_shr, invoke_result.strategy,
      invoke_result.is_constructible_from_nullptr, is_constructible_from_nullptr,
      mitamagic.element_type, mitamagic.is_pointer_like, mitamagic.has_arrow,
      mitamagic.has_bool, mitamagic.deref_type, maybe.instantiate,
      is_ok_eq_operator_bool, ha, maybe.construct, Val.from_nullptr, bind, Except.bind,
      pure, Except.pure]

/-- C5: on the absent `maybe<int>` built from a null `int*`, chaining a transformation
that returns `std::optional<int*>` takes the `nullptr` arm and wraps `R{nullptr}`, which
is an optional holding a null pointer: the result is a present `maybe<int*>` whose
`unwrap()` is the null pointer, and `f` is not called. -/
theorem C5_absent_chain_optional_of_pointer {σ : Type} (h : Heap)
    (f : Val → σ → Val × σ) (s : σ) (self : Nat) :
    ∃ m2 : maybe,
      (maybe.mk .int (mitamagic.maybe_view.mk (.pointer .int)
        (.own 100 (.pointer none)))).operator_shr h
          (invoke_result.mk (.optional (.pointer .int)) false) f s self = .ok (m2, s) ∧
      m2.T = .pointer .int ∧
      m2.storage_.storage_ = .own self (.opt_some (.pointer none)) ∧
      m2.operator_bool h = .ok true ∧ m2.unwrap h = .ok (.pointer none) :=
  ⟨_, rfl, rfl, rfl, rfl, rfl⟩

/-- C6: chaining a transformation that returns `bool`, or `std::string`, does not
compile, whatever the `maybe` holds: the type is constructible from `nullptr`, so the
`nullptr` arm is kept and not the fallback arm, and `element_type` has no member `type`
for it. -/
theorem C6_chain_bool_or_string_ill_formed {σ : Type} (h : Heap) (m : maybe)
    (f : Val → σ → Val × σ) (s : σ) (self : Nat) :
    (invoke_result.mk .bool false).strategy = .from_nullptr ∧
      m.operator_shr h (invoke_result.mk .bool false) f s self = .error .ill_formed ∧
      (invoke_result.mk .string false).strategy = .from_nullptr ∧
      m.operator_shr h (invoke_result.mk .string false) f s self = .error .ill_formed :=
  ⟨rfl, operator_shr_no_element_type h m _ f s self rfl rfl,
   rfl, operator_shr_no_element_type h m _ f s self rfl rfl⟩

theorem instantiate_nullopt_t (T : Ty) : maybe.instantiate T .nullopt_t = .error .ill_formed :=
  rfl

theorem operator_shr_from_None {σ : Type} (h : Heap) (m : maybe) (R : invoke_result)
    (f : Val → σ → Val × σ) (s : σ) (self : Nat) (hR : R.strategy = .from_None) :
    m.operator_shr h R f s self = .error .ill_formed := by
  unfold maybe.operator_shr
  simp only [hR]
  cases he : mitamagic.element_type R.type with
  | none => rfl
  | some E =>
    cases hi : maybe.instantiate E R.type with
    | error e =>
      have : e = .ill_formed := by
        unfold maybe.instantiate at hi
        split at hi
        · split at hi
          · split at hi <;> simp_all
          · simp_all
        · simp_all
      simp [bind, Except.bind, hi, this]
    | ok u => simp [bind, Except.bind, hi, instantiate_nullopt_t]

/-- C7: chaining a transformation that returns `std::optional<int>` does not compile,
whatever the `maybe` holds: the `None` arm is kept, and its absent branch builds the
result from `None` itself, a `std::nullopt_t`, for which there is no `maybe_view`. -/
theorem C7_chain_optional_result_ill_formed {σ : Type} (h : Heap) (m : maybe)
    (f : Val → σ → Val × σ) (s : σ) (self : Nat) :
    (invoke_result.mk (.optional .int) false).strategy = .from_None ∧
      mitamagic.is_pointer_like .nullopt_t = false ∧
      m.operator_shr h (invoke_result.mk (.optional .int) false) f s self =
        .error .ill_formed :=
  ⟨rfl, rfl, operator_shr_from_None h m _ f s self rfl⟩

theorem operator_shr_pointer_present {σ : Type} (h : Heap) (m : maybe) (R : invoke_result)
    (f : Val → σ → Val × σ) (s : σ) (self : Nat) (v : Val) (t : Ty)
    (hp : m.operator_bool h = .ok true) (hv : m.unwrap h = .ok v)
    (hR : R.type = .pointer t ∨ R.type = .unique_ptr t ∨ R.type = .shared_ptr t) (hval : R.lvalue_ref = false) :
    m.operator_shr h R f s self =
      .ok (maybe.mk t (mitamagic.maybe_view.mk R.type (.own self (f v s).1)), (f v s).2) := by
  obtain ⟨R, lv⟩ := R
  simp only at hval hR
  subst hval
  rcases hR with rfl | rfl | rfl <;>
    simp [maybe.operator_shr, invoke_result.strategy,
      invoke_result.is_constructible_from_nullptr, is_constructible_from_nullptr,
      mitamagic.element_type, mitamagic.is_pointer_like, mitamagic.is_pointer,
      mitamagic.has_arrow, mitamagic.deref_type, mitamagic.has_bool, maybe.instantiate,
      is_ok_eq_operator_bool, deref_eq_unwrap, hp, hv, maybe.construct, bind, Except.bind,
      pure, Except.pure]

/-- C8: chaining a transformation whose result type is a raw or smart pointer to `t` on a
present `maybe` holding `v` gives a `maybe<t>` whose view owns `f(v)` itself: it is present
exactly when `f(v)` is not null, and `unwrap()` gives what `*f(v)` gives. -/
theorem C8_chain_present_pointer_result {σ : Type} (h : Heap) (m : maybe) (R : invoke_result)
    (f : Val → σ → Val × σ) (s : σ) (self : Nat) (v : Val) (t : Ty)
    (hp : m.operator_bool h = .ok true) (hv : m.unwrap h = .ok v)
    (hR : R.type = .pointer t ∨ R.type = .unique_ptr t ∨ R.type = .shared_ptr t) (hval : R.lvalue_ref = false)
    (hty : (f v s).1.has_type R.type = true) :
    ∃ m2 : maybe, m.operator_shr h R f s self = .ok (m2, (f v s).2) ∧
      m2.T = t ∧ m2.storage_.storage_ = .own self (f v s).1 ∧
      (m2.operator_bool h = .ok true ↔ (f v s).1.is_null = false) ∧
      (m2.operator_bool h = .ok false ↔ (f v s).1.is_null = true) ∧
      m2.unwrap h = (f v s).1.star h := by
  refine ⟨_, operator_shr_pointer_present h m R f s self v t hp hv hR hval, rfl, rfl, ?_, ?_, ?_⟩
  · rw [operator_bool_of_load h
      (maybe.mk t (mitamagic.maybe_view.mk R.type (.own self (f v s).1))) (f v s).1 rfl]
    generalize (f v s).1 = r at hty
    rcases hR with e | e | e <;> rw [e] at hty <;> cases r <;>
      simp [Val.has_type] at hty <;> rename_i a <;> cases a <;>
      simp [Val.truthy, Val.is_null]
  · rw [operator_bool_of_load h
      (maybe.mk t (mitamagic.maybe_view.mk R.type (.own self (f v s).1))) (f v s).1 rfl]
    generalize (f v s).1 = r at hty
    rcases hR with e | e | e <;> rw [e] at hty <;> cases r <;>
      simp [Val.has_type] at hty <;> rename_i a <;> cases a <;>
      simp [Val.truthy, Val.is_null]
  · exact unwrap_of_load h
      (maybe.mk t (mitamagic.maybe_view.mk R.type (.own self (f v s).1))) (f v s).1 rfl

theorem C8_chain_present_pointer_result_witness :
    ∃ m2 : maybe,
      (maybe.mk .int (mitamagic.maybe_view.mk (.pointer .int)
        (.own 100 (.pointer (some (.cell 0)))))).operator_shr heap_int
          (invoke_result.mk (.unique_ptr .int) false)
          (pure_function (fun _ => .unique_ptr (some (.cell 0)))) () 101 = .ok (m2, ()) ∧
      m2.T = .int ∧ m2.storage_.storage_ = .own 101 (.unique_ptr (some (.cell 0))) ∧
      (m2.operator_bool heap_int = .ok true ↔
        Val.is_null (.unique_ptr (some (.cell 0))) = false) ∧
      (m2.operator_bool heap_int = .ok false ↔
        Val.is_null (.unique_ptr (some (.cell 0))) = true) ∧
      m2.unwrap heap_int = .ok (.int 5) :=
  C8_chain_present_pointer_result heap_int _ (invoke_result.mk (.unique_ptr .int) false)
    (pure_function (fun _ => .unique_ptr (some (.cell 0)))) () 101 (.int 5) .int
    rfl rfl (Or.inr (Or.inl rfl)) rfl rfl

/-! ## Round trip through the identity -/

/-- C9, as stated, fails: with `int x = 7; int* q = &x; int** p = &q;`, the `maybe` built
from `p` holds `q`; chaining the identity `[](int* v) { return v; }` takes the `nullptr`
arm and gives a `maybe<int>` that wraps `q`, so `unwrap()` is the `int` 7 where `*p` is
the pointer `q`. -/
theorem C9_round_trip_counterexample :
    ∃ m m2 : maybe,
      maybe.deduce (.pointer (.pointer .int)) (.rvalue (.pointer (some (.cell 1)))) 100
        = .ok m ∧
      m.operator_bool heap_pointer = .ok true ∧
      m.operator_shr heap_pointer (invoke_result.mk (.pointer .int) false)
        (pure_function id) () 101 = .ok (m2, ()) ∧
      Val.star heap_pointer (.pointer (some (.cell 1))) = .ok (.pointer (some (.cell 0))) ∧
      m2.unwrap heap_pointer = .ok (.int 7) ∧
      m2.unwrap heap_pointer ≠ Val.star heap_pointer (.pointer (some (.cell 1))) := by
  refine ⟨_, _, rfl, rfl, rfl, rfl, rfl, ?_⟩
  intro hc
  have hne : (Except.ok (Val.int 7) : Outcome Val) = .ok (.pointer (some (.cell 0))) := hc
  simp at hne

/-- C9, amended: for a non-null pointer `p` to an object `v` whose type `T` the dispatch
sends to the fallback arm when the identity returns it (by value for a `T` constructible
neither from `nullptr` nor from `None`, or by reference for a `T` that can be copied),
constructing a `maybe` from `p`, chaining the identity and unwrapping gives `v`, the value
of `*p`. -/
theorem C9_round_trip_plain (h : Heap) (T : Ty) (u : Arg) (a : Place) (self self2 : Nat)
    (lv : Bool) (m : maybe) (v : Val)
    (hm : maybe.deduce (.pointer T) u self = .ok m)
    (hu : u.value h = some (.pointer (some a))) (hv : h.read a = some v)
    (hR : (invoke_result.mk T lv).strategy = .fallback) (hopt : optional_valid T = true)
    (hsome : (invoke_result.mk T lv).Some_well_formed = true) :
    ∃ m2 : maybe,
      m.operator_shr h (invoke_result.mk T lv) (pure_function id) () self2 = .ok (m2, ()) ∧
      m2.unwrap h = .ok v ∧ Val.star h (.pointer (some a)) = .ok v := by
  have hs : Val.star h (.pointer (some a)) = .ok v := by simp [Val.star, Heap.load, hv]
  have hc : maybe.construct T (.pointer T) u self = .ok m := by
    simpa [maybe.deduce, mitamagic.element_type, mitamagic.is_pointer,
      mitamagic.deref_type] using hm
  obtain ⟨hb, hw⟩ := present_of_construct h T (.pointer T) u self m _ hc hu rfl
  rw [hs] at hw
  exact ⟨_, operator_shr_fallback_present h m _ (pure_function id) () self2 v hb hw hR hopt
    hsome, rfl, hs⟩

theorem C9_round_trip_plain_witness :
    ∃ m2 : maybe,
      (maybe.mk (.pointer .int) (mitamagic.maybe_view.mk (.pointer (.pointer .int))
        (.own 100 (.pointer (some (.cell 1)))))).operator_shr heap_pointer
          (invoke_result.mk (.pointer .int) true) (pure_function id) () 101 = .ok (m2, ()) ∧
      m2.unwrap heap_pointer = .ok (.pointer (some (.cell 0))) ∧
      Val.star heap_pointer (.pointer (some (.cell 1))) = .ok (.pointer (some (.cell 0))) :=
  C9_round_trip_plain heap_pointer (.pointer .int) (.rvalue (.pointer (some (.cell 1))))
    (.cell 1) 100 101 true _ (.pointer (some (.cell 0))) rfl rfl rfl rfl rfl rfl

/-- The round trip of C9 for a pointer to `int` and the identity that returns by value. -/
theorem round_trip_int :
    ∃ m2 : maybe,
      (maybe.mk .int (mitamagic.maybe_view.mk (.pointer .int)
        (.ref (.cell 1)))).operator_shr heap_pointer (invoke_result.mk .int false)
          (pure_function id) () 101 = .ok (m2, ()) ∧
      m2.unwrap heap_pointer = .ok (.int 7) :=
  ⟨_, rfl, rfl⟩

/-- A reference to a `std::unique_ptr<int>` is sent to the fallback arm, which has to copy
the result into the `option`: the chain does not compile. -/
theorem operator_shr_unique_ptr_ref {σ : Type} (h : Heap) (m : maybe)
    (f : Val → σ → Val × σ) (s : σ) (self : Nat) :
    (invoke_result.mk (.unique_ptr .int) true).strategy = .fallback ∧
      m.operator_shr h (invoke_result.mk (.unique_ptr .int) true) f s self
        = .error .ill_formed :=
  ⟨rfl, rfl⟩

/-! ## Member access -/

theorem pointer_like_of_instantiate (T X : Ty) (hi : maybe.instantiate T X = .ok ()) :
    (∃ t, X = .pointer t) ∨ (∃ t, X = .unique_ptr t) ∨ (∃ t, X = .shared_ptr t) ∨
      ∃ t, X = .optional t := by
  cases X <;> simp [maybe.instantiate, mitamagic.is_pointer_like, mitamagic.is_pointer,
    mitamagic.has_arrow, mitamagic.deref_type, mitamagic.has_bool] at hi <;> simp

/-- C10, as stated, fails for an optional handed over as an rvalue: with
`std::optional<S> x{S{1, 2}};` at address 0 and `maybe m{std::move(x)};`, the view holds
an optional of its own, so `m.operator->()` is the address of the value inside the view
and not `&*x`, the address of the value inside `x`. -/
theorem C10_arrow_address_counterexample :
    ∃ m : maybe,
      maybe.deduce (.optional (.struct 0)) (.rvalue (.opt_some (.struct [1, 2]))) 100
        = .ok m ∧
      heap_optional.read (.cell 0) = some (.opt_some (.struct [1, 2])) ∧
      m.operator_bool heap_optional = .ok true ∧
      m.operator_arrow heap_optional = .ok (some (.value_of (.view_storage 100))) ∧
      Val.address_of_star (.cell 0) (.opt_some (.struct [1, 2]))
        = .ok (some (.value_of (.cell 0))) ∧
      m.operator_arrow heap_optional ≠
        Val.address_of_star (.cell 0) (.opt_some (.struct [1, 2])) := by
  refine ⟨_, rfl, rfl, rfl, rfl, rfl, ?_⟩
  intro hc
  have hne : (Except.ok (some (Place.value_of (.view_storage 100))) : Outcome (Option Place))
      = .ok (some (.value_of (.cell 0))) := hc
  simp at hne

theorem operator_arrow_ref (h : Heap) (T X : Ty) (x : Val) (px : Place)
    (hi : maybe.instantiate T X = .ok ()) (hx : h.read px = some x)
    (hty : x.has_type X = true) (ht : x.truthy = .ok true) :
    (maybe.mk T (mitamagic.maybe_view.mk X (.ref px))).operator_arrow h
      = x.address_of_star px := by
  rcases pointer_like_of_instantiate T X hi with ⟨t, rfl⟩ | ⟨t, rfl⟩ | ⟨t, rfl⟩ | ⟨t, rfl⟩ <;>
    cases x <;> simp [Val.has_type] at hty <;>
    first
    | (rename_i a
       cases a <;>
       simp_all [maybe.operator_arrow, mitamagic.maybe_view.get_pointer,
         mitamagic.maybe_view.load, mitamagic.maybe_view.place, mitamagic.is_pointer,
         Val.arrow, Val.address_of_star, Val.truthy, bind, Except.bind])
    | simp_all [maybe.operator_arrow, mitamagic.maybe_view.get_pointer,
         mitamagic.maybe_view.load, mitamagic.maybe_view.place, mitamagic.is_pointer,
         Val.arrow, Val.address_of_star, Val.truthy, bind, Except.bind]

theorem operator_arrow_own (h : Heap) (T X : Ty) (self : Nat) (x : Val) (px : Place)
    (hi : maybe.instantiate T X = .ok ()) (hno : ∀ t, X ≠ .optional t)
    (hty : x.has_type X = true) (ht : x.truthy = .ok true) :
    (maybe.mk T (mitamagic.maybe_view.mk X (.own self x))).operator_arrow h
      = x.address_of_star px := by
  rcases pointer_like_of_instantiate T X hi with ⟨t, rfl⟩ | ⟨t, rfl⟩ | ⟨t, rfl⟩ | ⟨t, rfl⟩ <;>
    cases x <;> simp [Val.has_type] at hty <;>
    first
    | exact absurd rfl (hno _)
    | (rename_i a
       cases a <;>
       simp_all [maybe.operator_arrow, mitamagic.maybe_view.get_pointer,
         mitamagic.maybe_view.load, mitamagic.maybe_view.place, mitamagic.is_pointer,
         Val.arrow, Val.address_of_star, Val.truthy, bind, Except.bind])

theorem address_of_star_present (x : Val) (px : Place) (ht : x.truthy = .ok true) :
    ∃ a, x.address_of_star px = .ok (some a) := by
  cases x <;> simp [Val.truthy] at ht <;>
    first
    | exact ⟨_, rfl⟩
    | (rename_i a
       cases a <;> simp at ht
       exact ⟨_, rfl⟩)

/-- C10, amended: for a present `maybe` built from a pointer-like `x` that lives at `px`,
`operator->()` returns the address `&*x` when `x` is a raw or smart pointer (handed over
as an lvalue or as an rvalue), and when `x` is an optional handed over as an lvalue, which
the view then refers to. -/
theorem C10_arrow_address (h : Heap) (T X : Ty) (u : Arg) (self : Nat) (m : maybe)
    (x : Val) (px : Place)
    (hm : maybe.construct T X u self = .ok m) (hx : h.read px = some x)
    (hu : u = .lvalue px ∨ (u = .rvalue x ∧ ∀ t, X ≠ .optional t))
    (hty : x.has_type X = true) (ht : x.truthy = .ok true) :
    m.operator_arrow h = x.address_of_star px ∧
      ∃ a, m.operator_arrow h = .ok (some a) := by
  have key : m.operator_arrow h = x.address_of_star px := by
    rcases hu with rfl | ⟨rfl, hno⟩
    · obtain ⟨hi, rfl⟩ := (construct_ok_iff T X _ self m).1 hm
      exact operator_arrow_ref h T X x px hi hx hty ht
    · obtain ⟨hi, rfl⟩ := (construct_ok_iff T X _ self m).1 hm
      exact operator_arrow_own h T X self x px hi hno hty ht
  rw [key]
  exact ⟨rfl, address_of_star_present x px ht⟩

theorem C10_arrow_address_witness :
    (maybe.mk (.struct 0) (mitamagic.maybe_view.mk (.optional (.struct 0))
        (.ref (.cell 0)))).operator_arrow heap_optional = .ok (some (.value_of (.cell 0))) ∧
      ∃ a, (maybe.mk (.struct 0) (mitamagic.maybe_view.mk (.optional (.struct 0))
        (.ref (.cell 0)))).operator_arrow heap_optional = .ok (some a) :=
  C10_arrow_address heap_optional (.struct 0) (.optional (.struct 0)) (.lvalue (.cell 0)) 100 _
    (.opt_some (.struct [1, 2])) (.cell 0) rfl rfl (Or.inl rfl) rfl rfl

/-! ## The classifier -/

theorem is_pointer_like_shape_of (X : Ty) :
    mitamagic.is_pointer_like X = (mitamagic.shape_of X).is_pointer_like := rfl

theorem accepted_shape_of (X : Ty) :
    (mitamagic.is_pointer_like X || mitamagic.is_pointer X) = (mitamagic.shape_of X).accepted :=
  rfl

theorem instantiate_of_rejected (T X : Ty) (hr : (mitamagic.shape_of X).accepted = false) :
    maybe.instantiate T X = .error .ill_formed := by
  rw [← accepted_shape_of] at hr
  simp [maybe.instantiate, hr]

/-- C11: the classifier accepts a type exactly when it is a raw pointer or the truthiness
test, the dereference and the member `operator->` are all three well-formed for it; a type
that is no pointer and lacks one of the three is rejected. The classifier of a type of `Ty`
is the one `element_type` and the constructor of `maybe` ask, and a rejected type does not
compile there. -/
theorem C11_classifier_accepts_iff (s : mitamagic.shape) (T X : Ty) :
    (s.accepted = true ↔
      s.is_pointer = true ∨ (s.to_bool = true ∧ s.star_of_lvalue = true ∧ s.arrow = true)) ∧
    (s.accepted = false ↔
      s.is_pointer = false ∧ (s.to_bool = false ∨ s.star_of_lvalue = false ∨ s.arrow = false)) ∧
    (mitamagic.is_pointer_like X || mitamagic.is_pointer X) = (mitamagic.shape_of X).accepted ∧
    ((mitamagic.shape_of X).accepted = true ∨
      (mitamagic.element_type X = none ∧ maybe.instantiate T X = .error .ill_formed)) ∧
    mitamagic.shape_of_list_iterator.accepted = false ∧
    (mitamagic.shape_of .int).accepted = false ∧
    (mitamagic.shape_of (.pointer .int)).accepted = true ∧
    (mitamagic.shape_of (.optional .int)).accepted = true := by
  refine ⟨?_, ?_, rfl, ?_, rfl, rfl, rfl, rfl⟩
  · obtain ⟨p, a, d, b, e⟩ := s
    cases p <;> cases a <;> cases d <;> cases b <;>
      simp [mitamagic.shape.accepted, mitamagic.shape.is_pointer_like]
  · obtain ⟨p, a, d, b, e⟩ := s
    cases p <;> cases a <;> cases d <;> cases b <;>
      simp [mitamagic.shape.accepted, mitamagic.shape.is_pointer_like]
  · cases hacc : (mitamagic.shape_of X).accepted with
    | true => exact Or.inl rfl
    | false =>
      refine Or.inr ⟨?_, instantiate_of_rejected T X hacc⟩
      rw [← accepted_shape_of] at hacc
      simp [mitamagic.element_type, hacc]

/-! ## The pointee type -/

theorem element_type_shape_of (X : Ty) :
    mitamagic.element_type X =
      (mitamagic.shape_of X).element_type.map mitamagic.expression_type.type := by
  cases X <;> rfl

theorem star_of_accepted (X : Ty) (hacc : (mitamagic.shape_of X).accepted = true) :
    ∃ e, (mitamagic.shape_of X).star = some e ∧ mitamagic.element_type X = some e.type := by
  cases X <;> first
    | exact ⟨_, rfl, rfl⟩
    | exact absurd hacc (by simp [mitamagic.shape_of, mitamagic.shape.accepted,
        mitamagic.shape.is_pointer_like, mitamagic.has_arrow, mitamagic.is_pointer])

/-- C12, as stated, fails for the raw pointer `void*`: the classifier accepts it, as it
accepts every pointer, but `*std::declval<void*>()` is ill-formed, so `element_type<void*>`
has no `type`. -/
theorem C12_pointee_counterexample :
    mitamagic.shape_of_void_pointer.is_pointer = true ∧
      mitamagic.shape_of_void_pointer.accepted = true ∧
      mitamagic.shape_of_void_pointer.star = none ∧
      mitamagic.shape_of_void_pointer.element_type = none :=
  ⟨rfl, rfl, rfl, rfl⟩

/-- C12, amended: for every type the classifier accepts and for which `*x` is
well-formed, of type `e`, the pointee type is defined, is `e` with the reference removed,
and is not a reference. -/
theorem C12_pointee_type (s : mitamagic.shape) (e : mitamagic.expression_type)
    (hacc : s.accepted = true) (hstar : s.star = some e) :
    s.element_type = some (mitamagic.remove_reference_t e) ∧
      (mitamagic.remove_reference_t e).type = e.type ∧
      (mitamagic.remove_reference_t e).ref = .none := by
  simp [mitamagic.shape.element_type, hacc, hstar, mitamagic.remove_reference_t]

theorem C12_pointee_type_witness :
    (mitamagic.shape_of (.optional (.struct 0))).element_type
        = some (mitamagic.remove_reference_t (mitamagic.expression_type.mk (.struct 0) .rvalue)) ∧
      (mitamagic.remove_reference_t (mitamagic.expression_type.mk (.struct 0) .rvalue)).type
        = .struct 0 ∧
      (mitamagic.remove_reference_t (mitamagic.expression_type.mk (.struct 0) .rvalue)).ref
        = .none :=
  C12_pointee_type (mitamagic.shape_of (.optional (.struct 0)))
    (mitamagic.expression_type.mk (.struct 0) .rvalue) rfl rfl

/-! ## Ownership of the wrapped value -/

theorem read_write_of_root (h : Heap) (n : Nat) (y : Val) (a : Place)
    (hr : a.root ≠ some n) : (h.write n y).read a = h.read a := by
  induction a with
  | cell k =>
    have hk : k ≠ n := fun e => hr (by simp [Place.root, e])
    simp [Heap.read, Heap.write, hk]
  | view_storage k => rfl
  | local_None k => rfl
  | value_of p ih =>
    have hp : p.root ≠ some n := fun e => hr (by simpa [Place.root] using e)
    simp [Heap.read, ih hp]

theorem star_write_of_target (h : Heap) (n : Nat) (y x : Val)
    (hsep : ∀ a, x.target = some a → a.root ≠ some n) :
    x.star (h.write n y) = x.star h := by
  cases x with
  | pointer a =>
    cases a with
    | none => rfl
    | some p => simp [Val.star, Heap.load, read_write_of_root h n y p (hsep p rfl)]
  | unique_ptr a =>
    cases a with
    | none => rfl
    | some p => simp [Val.star, Heap.load, read_write_of_root h n y p (hsep p rfl)]
  | shared_ptr a =>
    cases a with
    | none => rfl
    | some p => simp [Val.star, Heap.load, read_write_of_root h n y p (hsep p rfl)]
  | _ => rfl

/-- C13, as stated, fails for a named variable: with `int x = 7; int* q = &x;` and
`maybe m{q};`, the view is a `maybe_view<int*&>` whose `storage_` is a reference to `q`;
`m` is present and unwraps to 7, and after `q = nullptr;` the same `m` is absent. -/
theorem C13_ownership_counterexample :
    ∃ m : maybe,
      maybe.deduce (.pointer .int) (.lvalue (.cell 1)) 100 = .ok m ∧
      m.storage_.storage_ = .ref (.cell 1) ∧
      m.operator_bool heap_pointer = .ok true ∧
      m.unwrap heap_pointer = .ok (.int 7) ∧
      m.operator_bool (heap_pointer.write 1 (.pointer none)) = .ok false ∧
      m.unwrap (heap_pointer.write 1 (.pointer none)) = .error .undefined :=
  ⟨_, rfl, rfl, rfl, rfl, rfl, rfl⟩

/-- C13, amended: a `maybe` constructed from a pointer-like value passed as an rvalue (a
temporary, or `std::move` of a variable) holds that value in its own view, so an
assignment to the original variable at address `n`, which the value does not point into,
leaves the presence and the unwrapped value of the `maybe` as they were. A `maybe`
constructed from a named variable holds a reference to it: in every later state its
presence and its unwrapped value are those of the value the variable then has. -/
theorem C13_ownership (h : Heap) (T X : Ty) (u : Arg) (self : Nat) (m : maybe)
    (n : Nat) (y : Val)
    (hm : maybe.construct T X u self = .ok m) :
    (∀ x, u = .rvalue x → (∀ a, x.target = some a → a.root ≠ some n) →
      m.storage_.storage_ = .own self x ∧
      m.operator_bool (h.write n y) = m.operator_bool h ∧
      m.unwrap (h.write n y) = m.unwrap h) ∧
    (∀ loc, u = .lvalue loc →
      m.storage_.storage_ = .ref loc ∧
      ∀ (h2 : Heap) (z : Val), h2.read loc = some z →
        m.operator_bool h2 = z.truthy ∧ m.unwrap h2 = z.star h2) := by
  constructor
  · intro x hu hsep
    subst hu
    obtain ⟨-, rfl⟩ := (construct_ok_iff T X _ self m).1 hm
    refine ⟨rfl, rfl, ?_⟩
    have hw := unwrap_of_load (h.write n y)
      (maybe.mk T (mitamagic.maybe_view.mk X (.own self x))) x rfl
    have hh := unwrap_of_load h (maybe.mk T (mitamagic.maybe_view.mk X (.own self x))) x rfl
    exact hw.trans ((star_write_of_target h n y x hsep).trans hh.symm)
  · intro loc hu
    subst hu
    refine ⟨?_, ?_⟩
    · obtain ⟨-, rfl⟩ := (construct_ok_iff T X _ self m).1 hm
      rfl
    · intro h2 z hz
      have hl := load_of_construct h2 T X (.lvalue loc) self m z hm hz
      exact ⟨operator_bool_of_load h2 m z hl, unwrap_of_load h2 m z hl⟩

theorem C13_ownership_witness :
    ((maybe.mk .int (mitamagic.maybe_view.mk (.pointer .int)
        (.own 100 (.pointer (some (.cell 0)))))).storage_.storage_
        = .own 100 (.pointer (some (.cell 0))) ∧
      (maybe.mk .int (mitamagic.maybe_view.mk (.pointer .int)
        (.own 100 (.pointer (some (.cell 0)))))).operator_bool
          (heap_pointer.write 1 (.pointer none)) = .ok true ∧
      (maybe.mk .int (mitamagic.maybe_view.mk (.pointer .int)
        (.own 100 (.pointer (some (.cell 0)))))).unwrap
          (heap_pointer.write 1 (.pointer none)) = .ok (.int 7)) ∧
    ((maybe.mk .int (mitamagic.maybe_view.mk (.pointer .int)
        (.ref (.cell 1)))).storage_.storage_ = .ref (.cell 1) ∧
      (maybe.mk .int (mitamagic.maybe_view.mk (.pointer .int)
        (.ref (.cell 1)))).operator_bool (heap_pointer.write 1 (.pointer none))
        = .ok false ∧
      (maybe.mk .int (mitamagic.maybe_view.mk (.pointer .int)
        (.ref (.cell 1)))).unwrap (heap_pointer.write 1 (.pointer none))
        = .error .undefined) :=
  ⟨(C13_ownership heap_pointer .int (.pointer .int) (.rvalue (.pointer (some (.cell 0))))
      100 _ 1 (.pointer none) rfl).1 (.pointer (some (.cell 0))) rfl
      (by intro a ha; cases ha; decide),
    ((C13_ownership heap_pointer .int (.pointer .int) (.lvalue (.cell 1))
      100 _ 1 (.pointer none) rfl).2 (.cell 1) rfl).1,
    (((C13_ownership heap_pointer .int (.pointer .int) (.lvalue (.cell 1))
      100 _ 1 (.pointer none) rfl).2 (.cell 1) rfl).2
        (heap_pointer.write 1 (.pointer none)) (.pointer none) rfl)⟩

/-! ## How often the transformation is called -/

theorem instantiate_of_element_type (R E : Ty) (he : mitamagic.element_type R = some E) :
    maybe.instantiate E R = .ok () := by
  cases R <;> simp_all [maybe.instantiate, mitamagic.element_type,
    mitamagic.is_pointer_like, mitamagic.is_pointer, mitamagic.has_arrow,
    mitamagic.deref_type, mitamagic.has_bool]

theorem operator_shr_from_nullptr_present {σ : Type} (h : Heap) (m : maybe)
    (R : invoke_result) (f : Val → σ → Val × σ) (s : σ) (self : Nat) (v : Val) (E : Ty)
    (hp : m.operator_bool h = .ok true) (hv : m.unwrap h = .ok v)
    (hR : R.strategy = .from_nullptr) (he : mitamagic.element_type R.type = some E) :
    m.operator_shr h R f s self =
      .ok (maybe.mk E (mitamagic.maybe_view.mk R.type (.own self (f v s).1)), (f v s).2) := by
  simp [maybe.operator_shr, hR, he, instantiate_of_element_type R.type E he,
    is_ok_eq_operator_bool, deref_eq_unwrap, hp, hv, maybe.construct, bind, Except.bind,
    pure, Except.pure]

/-- In the two arms that compile, chaining on a present `maybe` holding `v` calls the
transformation exactly once, on `v`: the log of its calls is `[v]` afterwards. -/
theorem operator_shr_present_calls_once (h : Heap) (m : maybe) (R : invoke_result)
    (g : Val → Val) (self : Nat) (v : Val)
    (hp : m.operator_bool h = .ok true) (hv : m.unwrap h = .ok v)
    (hR : (R.strategy = .fallback ∧ optional_valid R.type = true ∧
        R.Some_well_formed = true) ∨
      (R.strategy = .from_nullptr ∧ (mitamagic.element_type R.type).isSome = true)) :
    ∃ m2 : maybe, m.operator_shr h R (logged g) [] self = .ok (m2, [v]) := by
  rcases hR with ⟨hR, hopt, hsome⟩ | ⟨hR, he⟩
  · exact ⟨_, operator_shr_fallback_present h m R (logged g) [] self v hp hv hR hopt hsome⟩
  · obtain ⟨E, hE⟩ := Option.isSome_iff_exists.1 he
    exact ⟨_, operator_shr_from_nullptr_present h m R (logged g) [] self v E hp hv hR hE⟩

/-- C14: on the present `maybe<int>` built from a pointer to `int x = 5;`, chaining a
transformation that returns `std::optional<int>` keeps the `None` arm, which does not
compile, and chaining one that returns `bool` keeps the `nullptr` arm, which does not
compile either: there is no run in which the transformation is called. -/
theorem C14_present_chain_not_called (g : Val → Val) (self : Nat) :
    (maybe.mk .int (mitamagic.maybe_view.mk (.pointer .int)
        (.own 100 (.pointer (some (.cell 0)))))).operator_bool heap_int = .ok true ∧
      (maybe.mk .int (mitamagic.maybe_view.mk (.pointer .int)
        (.own 100 (.pointer (some (.cell 0)))))).unwrap heap_int = .ok (.int 5) ∧
      (invoke_result.mk (.optional .int) false).strategy = .from_None ∧
      (maybe.mk .int (mitamagic.maybe_view.mk (.pointer .int)
        (.own 100 (.pointer (some (.cell 0)))))).operator_shr heap_int
          (invoke_result.mk (.optional .int) false) (logged g) [] self = .error .ill_formed ∧
      (invoke_result.mk .bool false).strategy = .from_nullptr ∧
      (maybe.mk .int (mitamagic.maybe_view.mk (.pointer .int)
        (.own 100 (.pointer (some (.cell 0)))))).operator_shr heap_int
          (invoke_result.mk .bool false) (logged g) [] self = .error .ill_formed :=
  ⟨rfl, rfl, rfl, rfl, rfl, rfl⟩

/-! ## Composition -/

theorem operator_shr_fallback_eq {σ : Type} (h : Heap) (m : maybe) (R : invoke_result)
    (f : Val → σ → Val × σ) (s : σ) (self : Nat)
    (hR : R.strategy = .fallback) (hopt : optional_valid R.type = true)
    (hsome : R.Some_well_formed = true) :
    m.operator_shr h R f s self =
      match m.operator_bool h with
      | .error e => .error e
      | .ok false =>
        .ok (maybe.mk R.type (mitamagic.maybe_view.mk (.optional R.type)
          (.own self .opt_none)), s)
      | .ok true =>
        match m.unwrap h with
        | .error e => .error e
        | .ok v =>
          .ok (maybe.mk R.type (mitamagic.maybe_view.mk (.optional R.type)
            (.own self (.opt_some (f v s).1))), (f v s).2) := by
  cases hb : m.operator_bool h with
  | error e =>
    simp [maybe.operator_shr, hR, hopt, hsome, instantiate_optional, is_ok_eq_operator_bool,
      hb, bind, Except.bind]
  | ok b =>
    cases b with
    | false => exact operator_shr_fallback_absent h m R f s self hb hR hopt hsome
    | true =>
      cases hv : m.unwrap h with
      | error e =>
        simp [maybe.operator_shr, hR, hopt, hsome, instantiate_optional,
          is_ok_eq_operator_bool, deref_eq_unwrap, hb, hv, bind, Except.bind]
      | ok v => exact operator_shr_fallback_present h m R f s self v hb hv hR hopt hsome

/-- For transformations `f` and `g` whose results the dispatch sends to the fallback arm,
chaining `f` and then `g` on any `maybe` shows the caller the same as chaining the one
transformation `g` after `f`: the same presence, the same `unwrap()`, and the same state
left by the calls. -/
theorem composition_fallback {σ : Type} (h : Heap) (m : maybe) (Rf Rg : invoke_result)
    (f g : Val → σ → Val × σ) (s : σ) (self1 self2 self3 : Nat)
    (hf : Rf.strategy = .fallback) (hfo : optional_valid Rf.type = true)
    (hfs : Rf.Some_well_formed = true)
    (hg : Rg.strategy = .fallback) (hgo : optional_valid Rg.type = true)
    (hgs : Rg.Some_well_formed = true) :
    observe h ((m.operator_shr h Rf f s self1).bind
        (fun p => p.1.operator_shr h Rg g p.2 self2)) =
      observe h (m.operator_shr h Rg (compose f g) s self3) := by
  rw [operator_shr_fallback_eq h m Rf f s self1 hf hfo hfs,
    operator_shr_fallback_eq h m Rg (compose f g) s self3 hg hgo hgs]
  cases hb : m.operator_bool h with
  | error e => rfl
  | ok b =>
    cases b with
    | false =>
      simp only [Except.bind]
      rw [operator_shr_fallback_eq h _ Rg g s self2 hg hgo hgs]
      rfl
    | true =>
      cases hv : m.unwrap h with
      | error e => rfl
      | ok v =>
        simp only [Except.bind]
        rw [operator_shr_fallback_eq h _ Rg g (f v s).2 self2 hg hgo hgs]
        rfl

/-- C15: with `int x = 5;`, `m` the `maybe` built from `&x`, `f = is_positive`, which
returns the plain value `bool`, and `g = to_int`, the chain `(m >> f) >> g` does not
compile, since `m >> f` keeps the `nullptr` arm, while `m >> (g . f)` compiles and gives a
present `maybe<int>` holding 1: the two sides do not agree. -/
theorem C15_composition_bool_result (self1 self2 self3 : Nat) :
    observe heap_int
        (((maybe.mk .int (mitamagic.maybe_view.mk (.pointer .int)
          (.own 100 (.pointer (some (.cell 0)))))).operator_shr heap_int
            (invoke_result.mk .bool false) (pure_function is_positive) () self1).bind
          (fun p => p.1.operator_shr heap_int (invoke_result.mk .int false)
            (pure_function to_int) p.2 self2)) =
      .error .ill_formed ∧
    observe heap_int
        ((maybe.mk .int (mitamagic.maybe_view.mk (.pointer .int)
          (.own 100 (.pointer (some (.cell 0)))))).operator_shr heap_int
            (invoke_result.mk .int false)
            (compose (pure_function is_positive) (pure_function to_int)) () self3) =
      .ok (.ok true, .ok (.int 1), ()) :=
  ⟨rfl, rfl⟩

/-- The composition of two counted `times_two` on the `maybe<int>` holding 5: both sides
give a present `maybe<int>` holding 20 after two calls. -/
theorem composition_times_two :
    observe heap_int
        (((maybe.mk .int (mitamagic.maybe_view.mk (.pointer .int)
          (.own 100 (.pointer (some (.cell 0)))))).operator_shr heap_int
            (invoke_result.mk .int false) (counted times_two) 0 101).bind
          (fun p => p.1.operator_shr heap_int (invoke_result.mk .int false)
            (counted times_two) p.2 102)) =
      .ok (.ok true, .ok (.int 20), 2) ∧
    observe heap_int
        ((maybe.mk .int (mitamagic.maybe_view.mk (.pointer .int)
          (.own 100 (.pointer (some (.cell 0)))))).operator_shr heap_int
            (invoke_result.mk .int false) (compose (counted times_two) (counted times_two))
            0 103) =
      .ok (.ok true, .ok (.int 20), 2) :=
  ⟨(composition_fallback heap_int _ (invoke_result.mk .int false)
      (invoke_result.mk .int false) (counted times_two) (counted times_two) 0 101 102 103
      rfl rfl rfl rfl rfl rfl).trans rfl, rfl⟩

end mitama
